import Mathlib

/-!
Shallow embedding of the CRF PDU codec from `src/avtp_crf.c` of libavtp.

Each container word of the header is kept as its sequence of wire bytes
(network byte order); the byte-order conversions `ntohl`/`htonl` and
`be64toh`/`htobe64` decode and encode those bytes big-endian, exactly as the
C calls do on the struct fields.  The bit-accessor macros, the field
identifier enumeration, the PULL constant and the common-header subtype
accessor live in headers that are not part of the extracted sources, so they
are modelled from the specification; everything else is translated from
`avtp_crf.c` line by line.
-/

/-- Modelled from the spec: `BITMASK(len)` from util.h (not under src/),
the mask with the `len` low bits set. -/
def BITMASK (w : Nat) : Nat := 2 ^ w - 1

-- Shift constants from avtp_crf.c (lines 39-47).
def SHIFT_SV : Nat := 31 - 8
def SHIFT_MR : Nat := 31 - 12
def SHIFT_FS : Nat := 31 - 14
def SHIFT_TV : Nat := 31 - 15
def SHIFT_TU : Nat := 31 - 31
def SHIFT_SEQ_NUM : Nat := 31 - 23
def SHIFT_TYPE : Nat := 63 - 31
def SHIFT_BASE_FREQ : Nat := 63 - 39
def SHIFT_CRF_DATA_LEN : Nat := 63 - 15

-- Mask constants from avtp_crf.c (lines 49-58).
def MASK_SV : Nat := BITMASK 1 <<< SHIFT_SV
def MASK_MR : Nat := BITMASK 1 <<< SHIFT_MR
def MASK_FS : Nat := BITMASK 1 <<< SHIFT_FS
def MASK_TV : Nat := BITMASK 1 <<< SHIFT_TV
def MASK_TU : Nat := BITMASK 1 <<< SHIFT_TU
def MASK_SEQ_NUM : Nat := BITMASK 8 <<< SHIFT_SEQ_NUM
def MASK_TYPE : Nat := BITMASK 16 <<< SHIFT_TYPE
def MASK_BASE_FREQ : Nat := BITMASK 8 <<< SHIFT_BASE_FREQ
def MASK_CRF_DATA_LEN : Nat := BITMASK 16 <<< SHIFT_CRF_DATA_LEN
def MASK_TIMESTAMP_INTERVAL : Nat := BITMASK 16

/-- The base-frequency translation table `base_freq2rate` (avtp_crf.c
lines 60-63). -/
def base_freq2rate : List Nat :=
  [0, 8000, 11025, 16000, 22050, 32000, 44100, 48000, 64000, 88200, 96000]

/-- The errno constant used by every failure path (`-EINVAL` is returned). -/
def EINVAL : Int := 22

/-- Modelled from the spec: `BITMAP_GET_VALUE(bitmap, mask, shift)` from
util.h (not under src/): extract the masked bits and shift them down. -/
def BITMAP_GET_VALUE (bitmap mask shift : Nat) : Nat :=
  (bitmap &&& mask) >>> shift

/-- Modelled from the spec: `BITMAP_SET_VALUE(bitmap, value, mask, shift)`
from util.h (not under src/): clear the masked bits of the word and insert
the shifted value, without disturbing unrelated bits.  `W` is the bit width
of the C container word (32 for `uint32_t`, 64 for `uint64_t`); the C
complement `~mask` at that width is `BITMASK W ^^^ mask`. -/
def BITMAP_SET_VALUE (W bitmap val mask shift : Nat) : Nat :=
  (bitmap &&& (BITMASK W ^^^ mask)) ||| ((val <<< shift) &&& mask)

/-- Wire bytes of a `uint32_t` decoded big-endian to the host value:
`ntohl`. -/
def ntohl (bs : List Nat) : Nat := bs.foldl (fun acc b => acc * 256 + b) 0

/-- Host 32-bit value encoded to its four wire (big-endian) bytes:
`htonl`. -/
def htonl (x : Nat) : List Nat :=
  [x / 2 ^ 24 % 256, x / 2 ^ 16 % 256, x / 2 ^ 8 % 256, x % 256]

/-- Wire bytes of a `uint64_t` decoded big-endian to the host value:
`be64toh`. -/
def be64toh (bs : List Nat) : Nat := bs.foldl (fun acc b => acc * 256 + b) 0

/-- Host 64-bit value encoded to its eight wire (big-endian) bytes:
`htobe64`. -/
def htobe64 (x : Nat) : List Nat :=
  [x / 2 ^ 56 % 256, x / 2 ^ 48 % 256, x / 2 ^ 40 % 256, x / 2 ^ 32 % 256,
   x / 2 ^ 24 % 256, x / 2 ^ 16 % 256, x / 2 ^ 8 % 256, x % 256]

/-- The CRF header `struct avtp_crf_pdu` (avtp_crf.h; layout per the spec
data model): the 32-bit `subtype_data` word, the 64-bit `stream_id`, and the
64-bit `packet_info` word, each held as its network-order bytes. -/
structure avtp_crf_pdu where
  subtype_data : List Nat
  stream_id : List Nat
  packet_info : List Nat
deriving DecidableEq, Repr

/-- Modelled from the spec: the field identifiers `enum avtp_crf_field`
(avtp_crf.h, not under src/).  `AVTP_CRF_FIELD_MAX` stands for an identifier
outside the recognized set; it reaches the `default` branch of every
dispatch switch. -/
inductive avtp_crf_field where
  | AVTP_CRF_FIELD_SV
  | AVTP_CRF_FIELD_MR
  | AVTP_CRF_FIELD_FS
  | AVTP_CRF_FIELD_TV
  | AVTP_CRF_FIELD_TU
  | AVTP_CRF_FIELD_SEQ_NUM
  | AVTP_CRF_FIELD_TYPE
  | AVTP_CRF_FIELD_PULL
  | AVTP_CRF_FIELD_BASE_FREQ
  | AVTP_CRF_FIELD_CRF_DATA_LEN
  | AVTP_CRF_FIELD_STREAM_ID
  | AVTP_CRF_FIELD_TIMESTAMP_INTERVAL
  | AVTP_CRF_FIELD_MAX
deriving DecidableEq, Repr

/-- Modelled from the spec: the "multiply base frequency by 1" PULL constant
`AVTP_CRF_PULL_MULT_BY_1` (avtp_crf.h, not under src/), the first enumerator
of the pull values. -/
def AVTP_CRF_PULL_MULT_BY_1 : Nat := 0

/-- Translation of `get_field_value` (avtp_crf.c lines 65-135).  The C switch
resolves (mask, shift, container word) and a common tail applies
`BITMAP_GET_VALUE`; here each arm carries its mask/shift inline, which is the
same computation per field.  PULL returns the fixed constant without reading
the wire; BASE_FREQ is post-translated through `base_freq2rate`, a stored
code at or above the table size being an error.  `val` is the prior content
of the out parameter `*val`; the result is (return code, final `*val`). -/
def get_field_value (pdu : avtp_crf_pdu) (field : avtp_crf_field) (val : Nat) :
    Int × Nat :=
  match field with
  | .AVTP_CRF_FIELD_SV =>
      (0, BITMAP_GET_VALUE (ntohl pdu.subtype_data) MASK_SV SHIFT_SV)
  | .AVTP_CRF_FIELD_MR =>
      (0, BITMAP_GET_VALUE (ntohl pdu.subtype_data) MASK_MR SHIFT_MR)
  | .AVTP_CRF_FIELD_FS =>
      (0, BITMAP_GET_VALUE (ntohl pdu.subtype_data) MASK_FS SHIFT_FS)
  | .AVTP_CRF_FIELD_TU =>
      (0, BITMAP_GET_VALUE (ntohl pdu.subtype_data) MASK_TU SHIFT_TU)
  | .AVTP_CRF_FIELD_SEQ_NUM =>
      (0, BITMAP_GET_VALUE (ntohl pdu.subtype_data) MASK_SEQ_NUM SHIFT_SEQ_NUM)
  | .AVTP_CRF_FIELD_TYPE =>
      (0, BITMAP_GET_VALUE (be64toh pdu.packet_info) MASK_TYPE SHIFT_TYPE)
  | .AVTP_CRF_FIELD_PULL =>
      (0, AVTP_CRF_PULL_MULT_BY_1)
  | .AVTP_CRF_FIELD_BASE_FREQ =>
      let v := BITMAP_GET_VALUE (be64toh pdu.packet_info) MASK_BASE_FREQ
        SHIFT_BASE_FREQ
      if base_freq2rate.length ≤ v then (-EINVAL, v)
      else (0, base_freq2rate.getD v 0)
  | .AVTP_CRF_FIELD_CRF_DATA_LEN =>
      (0, BITMAP_GET_VALUE (be64toh pdu.packet_info) MASK_CRF_DATA_LEN
        SHIFT_CRF_DATA_LEN)
  | .AVTP_CRF_FIELD_TIMESTAMP_INTERVAL =>
      (0, BITMAP_GET_VALUE (be64toh pdu.packet_info) MASK_TIMESTAMP_INTERVAL 0)
  | _ => (-EINVAL, val)

/-- Translation of `avtp_crf_pdu_get` (avtp_crf.c lines 137-168).  The header
pointer argument is `none` when null and is returned unchanged (the function
takes a const pointer and performs no store through it); `val` is the out
parameter, `none` standing for a null pointer. -/
def avtp_crf_pdu_get (pdu : Option avtp_crf_pdu) (field : avtp_crf_field)
    (val : Option Nat) : Option avtp_crf_pdu × Int × Option Nat :=
  match pdu, val with
  | none, v => (none, -EINVAL, v)
  | some p, none => (some p, -EINVAL, none)
  | some p, some v =>
    match field with
    | .AVTP_CRF_FIELD_SV | .AVTP_CRF_FIELD_MR | .AVTP_CRF_FIELD_FS
    | .AVTP_CRF_FIELD_TU | .AVTP_CRF_FIELD_SEQ_NUM | .AVTP_CRF_FIELD_TYPE
    | .AVTP_CRF_FIELD_PULL | .AVTP_CRF_FIELD_BASE_FREQ
    | .AVTP_CRF_FIELD_CRF_DATA_LEN | .AVTP_CRF_FIELD_TIMESTAMP_INTERVAL =>
        let r := get_field_value p field v
        (some p, r.1, some r.2)
    | .AVTP_CRF_FIELD_STREAM_ID =>
        (some p, 0, some (be64toh p.stream_id))
    | _ => (some p, -EINVAL, some v)

/-- Common tail of `set_field_value_32` (avtp_crf.c lines 205-209): read the
32-bit word from the wire, insert the field, store it back in network
order. -/
def write_32 (pdu : avtp_crf_pdu) (val mask shift : Nat) : avtp_crf_pdu :=
  { pdu with
    subtype_data := htonl
      (BITMAP_SET_VALUE 32 (ntohl pdu.subtype_data) val mask shift) }

/-- Common tail of `set_field_value_64` (avtp_crf.c lines 255-259): read the
64-bit word from the wire, insert the field, store it back in network
order. -/
def write_64 (pdu : avtp_crf_pdu) (val mask shift : Nat) : avtp_crf_pdu :=
  { pdu with
    packet_info := htobe64
      (BITMAP_SET_VALUE 64 (be64toh pdu.packet_info) val mask shift) }

/-- Translation of `set_field_value_32` (avtp_crf.c lines 170-212): the
switch resolves (mask, shift) for the six 32-bit-word fields, then the common
tail writes; an unrecognized field returns `-EINVAL` before any write. -/
def set_field_value_32 (pdu : avtp_crf_pdu) (field : avtp_crf_field)
    (val : Nat) : Int × avtp_crf_pdu :=
  match field with
  | .AVTP_CRF_FIELD_SV => (0, write_32 pdu val MASK_SV SHIFT_SV)
  | .AVTP_CRF_FIELD_MR => (0, write_32 pdu val MASK_MR SHIFT_MR)
  | .AVTP_CRF_FIELD_FS => (0, write_32 pdu val MASK_FS SHIFT_FS)
  | .AVTP_CRF_FIELD_TV => (0, write_32 pdu val MASK_TV SHIFT_TV)
  | .AVTP_CRF_FIELD_TU => (0, write_32 pdu val MASK_TU SHIFT_TU)
  | .AVTP_CRF_FIELD_SEQ_NUM =>
      (0, write_32 pdu val MASK_SEQ_NUM SHIFT_SEQ_NUM)
  | _ => (-EINVAL, pdu)

/-- Translation of `set_field_value_64` (avtp_crf.c lines 214-262).  PULL
only accepts the "multiply by 1" constant and never writes; BASE_FREQ scans
`base_freq2rate` for the first entry equal to the requested Hz value and
stores its index, failing without mutation when no entry matches; the
remaining fields resolve (mask, shift) and fall to the common write tail. -/
def set_field_value_64 (pdu : avtp_crf_pdu) (field : avtp_crf_field)
    (val : Nat) : Int × avtp_crf_pdu :=
  match field with
  | .AVTP_CRF_FIELD_TYPE => (0, write_64 pdu val MASK_TYPE SHIFT_TYPE)
  | .AVTP_CRF_FIELD_PULL =>
      if val = AVTP_CRF_PULL_MULT_BY_1 then (0, pdu) else (-EINVAL, pdu)
  | .AVTP_CRF_FIELD_BASE_FREQ =>
      match base_freq2rate.findIdx? (fun r => r == val) with
      | some i => (0, write_64 pdu i MASK_BASE_FREQ SHIFT_BASE_FREQ)
      | none => (-EINVAL, pdu)
  | .AVTP_CRF_FIELD_CRF_DATA_LEN =>
      (0, write_64 pdu val MASK_CRF_DATA_LEN SHIFT_CRF_DATA_LEN)
  | .AVTP_CRF_FIELD_TIMESTAMP_INTERVAL =>
      (0, write_64 pdu val MASK_TIMESTAMP_INTERVAL 0)
  | _ => (-EINVAL, pdu)

/-- Translation of `avtp_crf_pdu_set` (avtp_crf.c lines 264-297): null check,
then dispatch to the 32-bit path, the 64-bit path, the raw STREAM_ID store,
or the `default` failure. -/
def avtp_crf_pdu_set (pdu : Option avtp_crf_pdu) (field : avtp_crf_field)
    (val : Nat) : Int × Option avtp_crf_pdu :=
  match pdu with
  | none => (-EINVAL, none)
  | some p =>
    match field with
    | .AVTP_CRF_FIELD_SV | .AVTP_CRF_FIELD_MR | .AVTP_CRF_FIELD_FS
    | .AVTP_CRF_FIELD_TV | .AVTP_CRF_FIELD_TU | .AVTP_CRF_FIELD_SEQ_NUM =>
        let r := set_field_value_32 p field val
        (r.1, some r.2)
    | .AVTP_CRF_FIELD_TYPE | .AVTP_CRF_FIELD_PULL | .AVTP_CRF_FIELD_BASE_FREQ
    | .AVTP_CRF_FIELD_CRF_DATA_LEN | .AVTP_CRF_FIELD_TIMESTAMP_INTERVAL =>
        let r := set_field_value_64 p field val
        (r.1, some r.2)
    | .AVTP_CRF_FIELD_STREAM_ID =>
        (0, some { p with stream_id := htobe64 val })
    | _ => (-EINVAL, some p)

/-- Modelled from the spec: the CRF subtype tag constant `AVTP_SUBTYPE_CRF`
(avtp.h, not under src/). -/
def AVTP_SUBTYPE_CRF : Nat := 4

/-- Modelled from the spec: shift of the common-header subtype tag, the top
8 bits of the first 32-bit word (avtp.c, not under src/). -/
def SHIFT_SUBTYPE : Nat := 24

/-- Modelled from the spec: mask of the common-header subtype tag. -/
def MASK_SUBTYPE : Nat := BITMASK 8 <<< SHIFT_SUBTYPE

/-- Modelled from the spec: the external common-header accessor
`avtp_pdu_set` on `AVTP_FIELD_SUBTYPE` (avtp.c, not under src/).  The CRF
header shares its first 32-bit word with the common header; the subtype
write follows the same read/insert/store shape as the CRF 32-bit path. -/
def avtp_pdu_set_subtype (pdu : avtp_crf_pdu) (val : Nat) :
    Int × avtp_crf_pdu :=
  (0, write_32 pdu val MASK_SUBTYPE SHIFT_SUBTYPE)

/-- Modelled from the spec: read back the common-header subtype tag. -/
def avtp_pdu_get_subtype (pdu : avtp_crf_pdu) : Nat :=
  BITMAP_GET_VALUE (ntohl pdu.subtype_data) MASK_SUBTYPE SHIFT_SUBTYPE

/-- The header produced by `memset(pdu, 0, sizeof(struct avtp_crf_pdu))`. -/
def zeroPdu : avtp_crf_pdu :=
  { subtype_data := List.replicate 4 0
  , stream_id := List.replicate 8 0
  , packet_info := List.replicate 8 0 }

/-- Translation of `avtp_crf_pdu_init` (avtp_crf.c lines 299-323): null
check, `memset` to zero, subtype tag write, then SV := 1 and TV := 1 through
the regular set path, each intermediate error being propagated as the
result. -/
def avtp_crf_pdu_init (pdu : Option avtp_crf_pdu) : Int × Option avtp_crf_pdu :=
  match pdu with
  | none => (-EINVAL, none)
  | some _ =>
    let r1 := avtp_pdu_set_subtype zeroPdu AVTP_SUBTYPE_CRF
    if r1.1 < 0 then (r1.1, some r1.2)
    else
      let r2 := avtp_crf_pdu_set (some r1.2) .AVTP_CRF_FIELD_SV 1
      if r2.1 < 0 then (r2.1, r2.2)
      else
        let r3 := avtp_crf_pdu_set r2.2 .AVTP_CRF_FIELD_TV 1
        if r3.1 < 0 then (r3.1, r3.2) else (0, r3.2)

/-- Bit width of each field per the spec data-model table (for BASE_FREQ
this is the width of the wire code). -/
def field_width : avtp_crf_field → Nat
  | .AVTP_CRF_FIELD_SV | .AVTP_CRF_FIELD_MR | .AVTP_CRF_FIELD_FS
  | .AVTP_CRF_FIELD_TV | .AVTP_CRF_FIELD_TU => 1
  | .AVTP_CRF_FIELD_SEQ_NUM | .AVTP_CRF_FIELD_BASE_FREQ => 8
  | .AVTP_CRF_FIELD_TYPE | .AVTP_CRF_FIELD_CRF_DATA_LEN
  | .AVTP_CRF_FIELD_TIMESTAMP_INTERVAL => 16
  | .AVTP_CRF_FIELD_STREAM_ID => 64
  | _ => 0

/-!
Bit-level lemmas about the modelled accessor and the byte-order codecs.
-/

theorem ntohl_htonl (x : Nat) : ntohl (htonl x) = x % 2 ^ 32 := by
  simp [ntohl, htonl]
  omega

theorem be64toh_htobe64 (x : Nat) : be64toh (htobe64 x) = x % 2 ^ 64 := by
  simp [be64toh, htobe64]
  omega

theorem BITMAP_SET_VALUE_lt (W b v m s : Nat) (hm : m < 2 ^ W) :
    BITMAP_SET_VALUE W b v m s < 2 ^ W := by
  have hM : BITMASK W < 2 ^ W := by
    unfold BITMASK
    exact Nat.sub_lt (Nat.two_pow_pos W) Nat.one_pos
  unfold BITMAP_SET_VALUE
  exact Nat.or_lt_two_pow (Nat.and_lt_two_pow _ (Nat.xor_lt_two_pow hM hm))
    (Nat.and_lt_two_pow _ hm)

theorem get_set_same_mod (W b v w s : Nat) (hws : s + w ≤ W) :
    BITMAP_GET_VALUE (BITMAP_SET_VALUE W b v (BITMASK w <<< s) s)
      (BITMASK w <<< s) s = v % 2 ^ w := by
  unfold BITMAP_GET_VALUE BITMAP_SET_VALUE BITMASK
  apply Nat.eq_of_testBit_eq
  intro i
  rcases Nat.lt_or_ge i w with hi | hi
  · have h2 : s + i - s = i := by omega
    have h3 : s + i < W := by omega
    simp [Nat.testBit_shiftRight, Nat.testBit_land, Nat.testBit_lor,
          Nat.testBit_xor, Nat.testBit_shiftLeft, Nat.testBit_mod_two_pow,
          h2, h3, hi, Nat.le_add_right]
  · have h2 : s + i - s = i := by omega
    have hi' : ¬ i < w := by omega
    simp [Nat.testBit_shiftRight, Nat.testBit_land, Nat.testBit_lor,
          Nat.testBit_xor, Nat.testBit_shiftLeft, Nat.testBit_mod_two_pow,
          h2, hi', Nat.le_add_right]

theorem get_set_disjoint (W b v w1 s1 w2 s2 : Nat) (h2 : s2 + w2 ≤ W)
    (hd : s1 + w1 ≤ s2 ∨ s2 + w2 ≤ s1) :
    BITMAP_GET_VALUE (BITMAP_SET_VALUE W b v (BITMASK w1 <<< s1) s1)
      (BITMASK w2 <<< s2) s2 = BITMAP_GET_VALUE b (BITMASK w2 <<< s2) s2 := by
  unfold BITMAP_GET_VALUE BITMAP_SET_VALUE BITMASK
  apply Nat.eq_of_testBit_eq
  intro i
  rcases Nat.lt_or_ge i w2 with hi | hi
  · have h3 : s2 + i < W := by omega
    have hdis : ¬ (s1 ≤ s2 + i ∧ s2 + i - s1 < w1) := by omega
    rcases Decidable.em (s1 ≤ s2 + i) with hs1 | hs1
    · have hlt : ¬ (s2 + i - s1 < w1) := fun h => hdis ⟨hs1, h⟩
      simp [Nat.testBit_shiftRight, Nat.testBit_land, Nat.testBit_lor,
            Nat.testBit_xor, Nat.testBit_shiftLeft, h3, hi, hs1, hlt,
            Nat.le_add_right, Nat.add_sub_cancel_left]
    · simp [Nat.testBit_shiftRight, Nat.testBit_land, Nat.testBit_lor,
            Nat.testBit_xor, Nat.testBit_shiftLeft, h3, hi, hs1,
            Nat.le_add_right, Nat.add_sub_cancel_left]
  · have hi' : ¬ i < w2 := by omega
    simp [Nat.testBit_shiftRight, Nat.testBit_land, Nat.testBit_lor,
          Nat.testBit_xor, Nat.testBit_shiftLeft, hi',
          Nat.le_add_right, Nat.add_sub_cancel_left]

theorem mask_lt (W w s : Nat) (hws : s + w ≤ W) : BITMASK w <<< s < 2 ^ W := by
  have h1 : BITMASK w <<< s < 2 ^ (s + w) := by
    rw [Nat.shiftLeft_eq, BITMASK, Nat.pow_add, Nat.mul_comm (2 ^ s)]
    exact Nat.mul_lt_mul_of_lt_of_le (Nat.sub_lt (Nat.two_pow_pos w) Nat.one_pos)
      (Nat.le_refl _) (Nat.two_pow_pos s)
  exact Nat.lt_of_lt_of_le h1 (Nat.pow_le_pow_right (by omega) hws)

theorem word_roundtrip32 (b v w s : Nat) (hws : s + w ≤ 32) :
    BITMAP_GET_VALUE (ntohl (htonl (BITMAP_SET_VALUE 32 b v (BITMASK w <<< s) s)))
      (BITMASK w <<< s) s = v % 2 ^ w := by
  rw [ntohl_htonl,
    Nat.mod_eq_of_lt (BITMAP_SET_VALUE_lt 32 b v _ s (mask_lt 32 w s hws))]
  exact get_set_same_mod 32 b v w s hws

theorem word_roundtrip64 (b v w s : Nat) (hws : s + w ≤ 64) :
    BITMAP_GET_VALUE (be64toh (htobe64 (BITMAP_SET_VALUE 64 b v (BITMASK w <<< s) s)))
      (BITMASK w <<< s) s = v % 2 ^ w := by
  rw [be64toh_htobe64,
    Nat.mod_eq_of_lt (BITMAP_SET_VALUE_lt 64 b v _ s (mask_lt 64 w s hws))]
  exact get_set_same_mod 64 b v w s hws

theorem word_roundtrip64_ti (b v : Nat) :
    BITMAP_GET_VALUE (be64toh (htobe64 (BITMAP_SET_VALUE 64 b v (BITMASK 16) 0)))
      (BITMASK 16) 0 = v % 2 ^ 16 :=
  word_roundtrip64 b v 16 0 (by omega)

theorem word_isolate32 (b v w1 s1 w2 s2 : Nat) (h1 : s1 + w1 ≤ 32)
    (h2 : s2 + w2 ≤ 32) (hd : s1 + w1 ≤ s2 ∨ s2 + w2 ≤ s1) :
    BITMAP_GET_VALUE (ntohl (htonl (BITMAP_SET_VALUE 32 b v (BITMASK w1 <<< s1) s1)))
      (BITMASK w2 <<< s2) s2 = BITMAP_GET_VALUE b (BITMASK w2 <<< s2) s2 := by
  rw [ntohl_htonl,
    Nat.mod_eq_of_lt (BITMAP_SET_VALUE_lt 32 b v _ s1 (mask_lt 32 w1 s1 h1))]
  exact get_set_disjoint 32 b v w1 s1 w2 s2 h2 hd

theorem word_isolate64 (b v w1 s1 w2 s2 : Nat) (h1 : s1 + w1 ≤ 64)
    (h2 : s2 + w2 ≤ 64) (hd : s1 + w1 ≤ s2 ∨ s2 + w2 ≤ s1) :
    BITMAP_GET_VALUE (be64toh (htobe64 (BITMAP_SET_VALUE 64 b v (BITMASK w1 <<< s1) s1)))
      (BITMASK w2 <<< s2) s2 = BITMAP_GET_VALUE b (BITMASK w2 <<< s2) s2 := by
  rw [be64toh_htobe64,
    Nat.mod_eq_of_lt (BITMAP_SET_VALUE_lt 64 b v _ s1 (mask_lt 64 w1 s1 h1))]
  exact get_set_disjoint 64 b v w1 s1 w2 s2 h2 hd

theorem word_isolate64_ti_get (b v w1 s1 : Nat) (h1 : s1 + w1 ≤ 64)
    (hd : 16 ≤ s1) :
    BITMAP_GET_VALUE (be64toh (htobe64 (BITMAP_SET_VALUE 64 b v (BITMASK w1 <<< s1) s1)))
      (BITMASK 16) 0 = BITMAP_GET_VALUE b (BITMASK 16) 0 :=
  word_isolate64 b v w1 s1 16 0 h1 (by omega) (Or.inr hd)

theorem word_isolate64_ti_set (b v w2 s2 : Nat) (h2 : s2 + w2 ≤ 64)
    (hd : 16 ≤ s2) :
    BITMAP_GET_VALUE (be64toh (htobe64 (BITMAP_SET_VALUE 64 b v (BITMASK 16) 0)))
      (BITMASK w2 <<< s2) s2 = BITMAP_GET_VALUE b (BITMASK w2 <<< s2) s2 :=
  word_isolate64 b v 16 0 w2 s2 (by omega) h2 (Or.inl hd)

/-- C10: `avtp_crf_pdu_get` never modifies the header: for every header
pointer (null or not), every field identifier (known or unknown, including
the set-only TV field), and every out-parameter, the header returned by the
state-passing embedding is the one passed in, on success and error paths
alike. -/
theorem get_preserves_header (pdu : Option avtp_crf_pdu)
    (field : avtp_crf_field) (val : Option Nat) :
    (avtp_crf_pdu_get pdu field val).1 = pdu := by
  match pdu, val with
  | none, _ => rfl
  | some p, none => rfl
  | some p, some v => cases field <;> rfl

/-- C5: `get` on PULL always returns the fixed "multiply by 1" constant,
whatever the header contents, and `set` on PULL returns success exactly when
the value is that constant (`-EINVAL` otherwise) while never modifying the
header. -/
theorem pull_fixed_constant :
    (∀ (p : avtp_crf_pdu) (u : Nat),
      avtp_crf_pdu_get (some p) .AVTP_CRF_FIELD_PULL (some u)
        = (some p, 0, some AVTP_CRF_PULL_MULT_BY_1)) ∧
    (∀ (p : avtp_crf_pdu) (v : Nat),
      avtp_crf_pdu_set (some p) .AVTP_CRF_FIELD_PULL v
        = ((if v = AVTP_CRF_PULL_MULT_BY_1 then 0 else -EINVAL), some p)) := by
  constructor
  · intro p u
    rfl
  · intro p v
    by_cases hv : v = AVTP_CRF_PULL_MULT_BY_1 <;>
      simp [avtp_crf_pdu_set, set_field_value_64, hv]

/-- C2: whenever `avtp_crf_pdu_set` returns an error (null header,
unrecognized field, BASE_FREQ value absent from the table, PULL value other
than the "multiply by 1" constant), the header is byte-for-byte unchanged:
no partial write is applied. -/
theorem set_error_leaves_header_unchanged (pdu : Option avtp_crf_pdu)
    (field : avtp_crf_field) (v : Nat)
    (h : (avtp_crf_pdu_set pdu field v).1 < 0) :
    (avtp_crf_pdu_set pdu field v).2 = pdu := by
  match pdu with
  | none => rfl
  | some p =>
    cases field with
    | AVTP_CRF_FIELD_PULL =>
        by_cases hv : v = AVTP_CRF_PULL_MULT_BY_1 <;>
          simp [avtp_crf_pdu_set, set_field_value_64, hv] at h ⊢
    | AVTP_CRF_FIELD_BASE_FREQ =>
        rcases hfind : base_freq2rate.findIdx? (fun r => r == v) with _ | i <;>
          simp [avtp_crf_pdu_set, set_field_value_64, hfind] at h ⊢
    | _ => first
        | rfl
        | simp [avtp_crf_pdu_set, set_field_value_32, set_field_value_64] at h

/-- C2 witness: a failing `set(BASE_FREQ, 99999)` leaves the zeroed header
unchanged. -/
theorem set_error_leaves_header_unchanged_witness :
    (avtp_crf_pdu_set (some zeroPdu) .AVTP_CRF_FIELD_BASE_FREQ 99999).2
      = some zeroPdu :=
  set_error_leaves_header_unchanged (some zeroPdu) .AVTP_CRF_FIELD_BASE_FREQ
    99999 (by decide)

/-- C8 counterexample: setting SEQ_NUM to 256 (outside the 8-bit range) on a
zeroed header does not fail: it returns success, the value wrapping to 0, so
out-of-range values are not rejected with an error. -/
theorem set_range_counterexample :
    avtp_crf_pdu_set (some zeroPdu) .AVTP_CRF_FIELD_SEQ_NUM 256
      = (0, some zeroPdu) := by decide

/-- C8 amended: for every width-bounded field (SV, MR, FS, TV, TU, SEQ_NUM,
TYPE, CRF_DATA_LEN, TIMESTAMP_INTERVAL, STREAM_ID) `avtp_crf_pdu_set` on a
non-null header performs no range validation: it succeeds for every value,
truncating it to the field's mask; only BASE_FREQ and PULL value checks can
fail. -/
theorem set_no_range_check (p : avtp_crf_pdu) (field : avtp_crf_field)
    (v : Nat)
    (hf : field ∈ [avtp_crf_field.AVTP_CRF_FIELD_SV,
      .AVTP_CRF_FIELD_MR, .AVTP_CRF_FIELD_FS, .AVTP_CRF_FIELD_TV,
      .AVTP_CRF_FIELD_TU, .AVTP_CRF_FIELD_SEQ_NUM, .AVTP_CRF_FIELD_TYPE,
      .AVTP_CRF_FIELD_CRF_DATA_LEN, .AVTP_CRF_FIELD_TIMESTAMP_INTERVAL,
      .AVTP_CRF_FIELD_STREAM_ID]) :
    (avtp_crf_pdu_set (some p) field v).1 = 0 := by
  fin_cases hf <;> rfl

/-- C8 amended witness: the amended statement at the counterexample's input. -/
theorem set_no_range_check_witness :
    (avtp_crf_pdu_set (some zeroPdu) .AVTP_CRF_FIELD_SEQ_NUM 256).1 = 0 :=
  set_no_range_check zeroPdu .AVTP_CRF_FIELD_SEQ_NUM 256 (by decide)

/-- C9: SEQ_NUM wraps modulo 256: for every header and every 64-bit value,
setting SEQ_NUM succeeds and a subsequent get returns the value modulo
256. -/
theorem seq_num_wraps (p : avtp_crf_pdu) (u v : Nat) (hv : v < 2 ^ 64) :
    (avtp_crf_pdu_set (some p) .AVTP_CRF_FIELD_SEQ_NUM v).1 = 0 ∧
    (avtp_crf_pdu_get (avtp_crf_pdu_set (some p) .AVTP_CRF_FIELD_SEQ_NUM v).2
      .AVTP_CRF_FIELD_SEQ_NUM (some u)).2.2 = some (v % 256) := by
  constructor
  · rfl
  · simp [avtp_crf_pdu_set, set_field_value_32, write_32, avtp_crf_pdu_get,
      get_field_value, MASK_SEQ_NUM, SHIFT_SEQ_NUM]
    rw [word_roundtrip32 (ntohl p.subtype_data) v 8 8 (by omega)]
    norm_num

/-- C9 witness: setting SEQ_NUM to 1000 succeeds and reads back 232. -/
theorem seq_num_wraps_witness :
    (avtp_crf_pdu_set (some zeroPdu) .AVTP_CRF_FIELD_SEQ_NUM 1000).1 = 0 ∧
    (avtp_crf_pdu_get
      (avtp_crf_pdu_set (some zeroPdu) .AVTP_CRF_FIELD_SEQ_NUM 1000).2
      .AVTP_CRF_FIELD_SEQ_NUM (some 0)).2.2 = some (1000 % 256) :=
  seq_num_wraps zeroPdu 0 1000 (by omega)

/-- C7 counterexample: TYPE does not occupy bits 63..48 of the 64-bit word.
Its mask is `BITMASK 16 <<< 32` (bits 47..32), not `BITMASK 16 <<< 48`;
setting TYPE to 0xFFFF on a zeroed header leaves bits 63..48 clear, while
setting CRF_DATA_LEN to 0xFFFF fills exactly those bits. -/
theorem bit_layout_counterexample :
    MASK_TYPE ≠ BITMASK 16 <<< 48 ∧
    BITMAP_GET_VALUE
      (be64toh ((set_field_value_64 zeroPdu
        .AVTP_CRF_FIELD_TYPE 65535).2.packet_info))
      (BITMASK 16 <<< 48) 48 = 0 ∧
    BITMAP_GET_VALUE
      (be64toh ((set_field_value_64 zeroPdu
        .AVTP_CRF_FIELD_CRF_DATA_LEN 65535).2.packet_info))
      (BITMASK 16 <<< 48) 48 = 65535 := by decide

/-- C7 amended: the layout constants are exactly those of the claim, except
that TYPE (width 16, shift 32) occupies bits 47..32, while CRF_DATA_LEN
(shift 48, i.e. shift 0 within the upper 16 bits) occupies bits 63..48; the
four 64-bit-word masks are pairwise disjoint, and each container word is
converted between network and host byte order by its own codec pair, which
are mutually inverse at the word width. -/
theorem bit_layout_amended :
    SHIFT_SV = 23 ∧ SHIFT_MR = 19 ∧ SHIFT_FS = 17 ∧ SHIFT_TV = 16 ∧
    SHIFT_TU = 0 ∧ SHIFT_SEQ_NUM = 8 ∧ MASK_SEQ_NUM = BITMASK 8 <<< 8 ∧
    SHIFT_TYPE = 32 ∧ MASK_TYPE = BITMASK 16 <<< 32 ∧
    SHIFT_BASE_FREQ = 24 ∧ MASK_BASE_FREQ = BITMASK 8 <<< 24 ∧
    MASK_TIMESTAMP_INTERVAL = BITMASK 16 ∧
    SHIFT_CRF_DATA_LEN = 48 ∧ MASK_CRF_DATA_LEN = BITMASK 16 <<< 48 ∧
    MASK_TYPE &&& MASK_BASE_FREQ = 0 ∧
    MASK_TYPE &&& MASK_CRF_DATA_LEN = 0 ∧
    MASK_TYPE &&& MASK_TIMESTAMP_INTERVAL = 0 ∧
    MASK_BASE_FREQ &&& MASK_CRF_DATA_LEN = 0 ∧
    MASK_BASE_FREQ &&& MASK_TIMESTAMP_INTERVAL = 0 ∧
    MASK_CRF_DATA_LEN &&& MASK_TIMESTAMP_INTERVAL = 0 ∧
    (∀ x : Nat, ntohl (htonl x) = x % 2 ^ 32) ∧
    (∀ x : Nat, be64toh (htobe64 x) = x % 2 ^ 64) := by
  refine ⟨rfl, rfl, rfl, rfl, rfl, rfl, rfl, rfl, rfl, rfl, rfl, rfl, rfl,
    rfl, by decide, by decide, by decide, by decide, by decide, by decide,
    ntohl_htonl, be64toh_htobe64⟩

/-- C4: after a successful `avtp_crf_pdu_init` on a non-null header the
result code is 0, the common-header subtype tag equals the CRF constant,
`get(SV)` returns 1, and SEQ_NUM, TYPE, BASE_FREQ (wire code 0, decoding to
0 Hz without error), CRF_DATA_LEN and TIMESTAMP_INTERVAL all decode to 0;
the definition zeroes the header, then writes the subtype tag, then SV := 1
and TV := 1, each intermediate error being propagated. -/
theorem init_defaults (p : avtp_crf_pdu) (u : Nat) :
    (avtp_crf_pdu_init (some p)).1 = 0 ∧
    (avtp_crf_pdu_init (some p)).2.map avtp_pdu_get_subtype
      = some AVTP_SUBTYPE_CRF ∧
    avtp_crf_pdu_get (avtp_crf_pdu_init (some p)).2
      .AVTP_CRF_FIELD_SV (some u)
      = ((avtp_crf_pdu_init (some p)).2, 0, some 1) ∧
    avtp_crf_pdu_get (avtp_crf_pdu_init (some p)).2
      .AVTP_CRF_FIELD_SEQ_NUM (some u)
      = ((avtp_crf_pdu_init (some p)).2, 0, some 0) ∧
    avtp_crf_pdu_get (avtp_crf_pdu_init (some p)).2
      .AVTP_CRF_FIELD_TYPE (some u)
      = ((avtp_crf_pdu_init (some p)).2, 0, some 0) ∧
    avtp_crf_pdu_get (avtp_crf_pdu_init (some p)).2
      .AVTP_CRF_FIELD_BASE_FREQ (some u)
      = ((avtp_crf_pdu_init (some p)).2, 0, some 0) ∧
    avtp_crf_pdu_get (avtp_crf_pdu_init (some p)).2
      .AVTP_CRF_FIELD_CRF_DATA_LEN (some u)
      = ((avtp_crf_pdu_init (some p)).2, 0, some 0) ∧
    avtp_crf_pdu_get (avtp_crf_pdu_init (some p)).2
      .AVTP_CRF_FIELD_TIMESTAMP_INTERVAL (some u)
      = ((avtp_crf_pdu_init (some p)).2, 0, some 0) :=
  ⟨rfl, rfl, rfl, rfl, rfl, rfl, rfl, rfl⟩

/-- C3: `get` on BASE_FREQ fails with `-EINVAL` exactly when the stored
8-bit wire code is 11 or greater; for each code 0 through 10 it succeeds and
returns the Hz value of the table entry at that code, a stored code of 0
decoding to 0 Hz without error. -/
theorem get_base_freq_decode (p : avtp_crf_pdu) (u c : Nat)
    (hc : BITMAP_GET_VALUE (be64toh p.packet_info) MASK_BASE_FREQ
      SHIFT_BASE_FREQ = c) :
    ((avtp_crf_pdu_get (some p) .AVTP_CRF_FIELD_BASE_FREQ (some u)).2.1
        = -EINVAL ↔ 11 ≤ c) ∧
    (c < 11 →
      avtp_crf_pdu_get (some p) .AVTP_CRF_FIELD_BASE_FREQ (some u)
        = (some p, 0, some (base_freq2rate.getD c 0))) := by
  constructor
  · by_cases h11 : 11 ≤ c <;>
      simp [avtp_crf_pdu_get, get_field_value, hc, base_freq2rate, h11, EINVAL]
  · intro hlt
    simp [avtp_crf_pdu_get, get_field_value, hc, base_freq2rate,
      Nat.not_le.mpr hlt]

/-- C3 witness: a zeroed header stores wire code 0; `get(BASE_FREQ)` does
not fail and decodes to 0 Hz. -/
theorem get_base_freq_decode_witness :
    (((avtp_crf_pdu_get (some zeroPdu) .AVTP_CRF_FIELD_BASE_FREQ (some 0)).2.1
        = -EINVAL ↔ 11 ≤ 0) ∧
      (0 < 11 →
        avtp_crf_pdu_get (some zeroPdu) .AVTP_CRF_FIELD_BASE_FREQ (some 0)
          = (some zeroPdu, 0, some (base_freq2rate.getD 0 0)))) :=
  get_base_freq_decode zeroPdu 0 0 (by decide)

theorem word_roundtrip32_tu (b v : Nat) :
    BITMAP_GET_VALUE (ntohl (htonl (BITMAP_SET_VALUE 32 b v (BITMASK 1) 0)))
      (BITMASK 1) 0 = v % 2 ^ 1 :=
  word_roundtrip32 b v 1 0 (by omega)

theorem base_freq_roundtrip_aux (p : avtp_crf_pdu) (u hz k : Nat)
    (hidx : base_freq2rate.findIdx? (fun r => r == hz) = some k)
    (hget : base_freq2rate.getD k 0 = hz) (hk : k < 11) :
    avtp_crf_pdu_get (avtp_crf_pdu_set (some p) .AVTP_CRF_FIELD_BASE_FREQ hz).2
      .AVTP_CRF_FIELD_BASE_FREQ (some u)
      = ((avtp_crf_pdu_set (some p) .AVTP_CRF_FIELD_BASE_FREQ hz).2, 0,
        some hz) := by
  simp [avtp_crf_pdu_set, set_field_value_64, hidx, write_64,
    avtp_crf_pdu_get, get_field_value, MASK_BASE_FREQ, SHIFT_BASE_FREQ]
  rw [word_roundtrip64 (be64toh p.packet_info) k 8 24 (by omega)]
  rw [Nat.mod_eq_of_lt (show k < 2 ^ 8 by omega)]
  have hlen : ¬ (base_freq2rate.length ≤ k) := by
    simp [base_freq2rate]
    omega
  simp only [if_neg hlen]
  refine ⟨trivial, ?_⟩
  simpa [List.getD] using hget

/-- C1: for every field with both accessors (SV, MR, FS, TU, SEQ_NUM, TYPE,
CRF_DATA_LEN, TIMESTAMP_INTERVAL, STREAM_ID) and every value within the
field's bit width, `set` followed by `get` on a non-null header returns the
original value; and for each of the 11 Hz values of the translation table,
`set(BASE_FREQ, hz)` followed by `get(BASE_FREQ)` returns the same hz. -/
theorem set_get_roundtrip :
    (∀ (p : avtp_crf_pdu) (u : Nat) (f : avtp_crf_field) (v : Nat),
      f ∈ [avtp_crf_field.AVTP_CRF_FIELD_SV, .AVTP_CRF_FIELD_MR,
        .AVTP_CRF_FIELD_FS, .AVTP_CRF_FIELD_TU, .AVTP_CRF_FIELD_SEQ_NUM,
        .AVTP_CRF_FIELD_TYPE, .AVTP_CRF_FIELD_CRF_DATA_LEN,
        .AVTP_CRF_FIELD_TIMESTAMP_INTERVAL, .AVTP_CRF_FIELD_STREAM_ID] →
      v < 2 ^ field_width f →
      avtp_crf_pdu_get (avtp_crf_pdu_set (some p) f v).2 f (some u)
        = ((avtp_crf_pdu_set (some p) f v).2, 0, some v)) ∧
    (∀ (p : avtp_crf_pdu) (u hz : Nat), hz ∈ base_freq2rate →
      avtp_crf_pdu_get
        (avtp_crf_pdu_set (some p) .AVTP_CRF_FIELD_BASE_FREQ hz).2
        .AVTP_CRF_FIELD_BASE_FREQ (some u)
        = ((avtp_crf_pdu_set (some p) .AVTP_CRF_FIELD_BASE_FREQ hz).2, 0,
          some hz)) := by
  constructor
  · intro p u f v hf hv
    fin_cases hf
    · simp_all [avtp_crf_pdu_set, set_field_value_32, write_32,
        avtp_crf_pdu_get, get_field_value, field_width, MASK_SV, SHIFT_SV]
      rw [word_roundtrip32 (ntohl p.subtype_data) v 1 23 (by omega)]
      omega
    · simp_all [avtp_crf_pdu_set, set_field_value_32, write_32,
        avtp_crf_pdu_get, get_field_value, field_width, MASK_MR, SHIFT_MR]
      rw [word_roundtrip32 (ntohl p.subtype_data) v 1 19 (by omega)]
      omega
    · simp_all [avtp_crf_pdu_set, set_field_value_32, write_32,
        avtp_crf_pdu_get, get_field_value, field_width, MASK_FS, SHIFT_FS]
      rw [word_roundtrip32 (ntohl p.subtype_data) v 1 17 (by omega)]
      omega
    · simp_all [avtp_crf_pdu_set, set_field_value_32, write_32,
        avtp_crf_pdu_get, get_field_value, field_width, MASK_TU, SHIFT_TU]
      rw [word_roundtrip32_tu (ntohl p.subtype_data) v]
      omega
    · simp_all [avtp_crf_pdu_set, set_field_value_32, write_32,
        avtp_crf_pdu_get, get_field_value, field_width, MASK_SEQ_NUM,
        SHIFT_SEQ_NUM]
      rw [word_roundtrip32 (ntohl p.subtype_data) v 8 8 (by omega)]
      omega
    · simp_all [avtp_crf_pdu_set, set_field_value_64, write_64,
        avtp_crf_pdu_get, get_field_value, field_width, MASK_TYPE, SHIFT_TYPE]
      rw [word_roundtrip64 (be64toh p.packet_info) v 16 32 (by omega)]
      omega
    · simp_all [avtp_crf_pdu_set, set_field_value_64, write_64,
        avtp_crf_pdu_get, get_field_value, field_width, MASK_CRF_DATA_LEN,
        SHIFT_CRF_DATA_LEN]
      rw [word_roundtrip64 (be64toh p.packet_info) v 16 48 (by omega)]
      omega
    · simp_all [avtp_crf_pdu_set, set_field_value_64, write_64,
        avtp_crf_pdu_get, get_field_value, field_width,
        MASK_TIMESTAMP_INTERVAL]
      rw [word_roundtrip64_ti (be64toh p.packet_info) v]
      omega
    · simp_all [avtp_crf_pdu_set, avtp_crf_pdu_get, field_width,
        be64toh_htobe64]
  · intro p u hz hhz
    fin_cases hhz <;>
      exact base_freq_roundtrip_aux p u _ _ rfl rfl (by decide)

/-- C1 witness: roundtrips at concrete inputs, SEQ_NUM 200 and
BASE_FREQ 48000 on a zeroed header. -/
theorem set_get_roundtrip_witness :
    avtp_crf_pdu_get
      (avtp_crf_pdu_set (some zeroPdu) .AVTP_CRF_FIELD_SEQ_NUM 200).2
      .AVTP_CRF_FIELD_SEQ_NUM (some 0)
      = ((avtp_crf_pdu_set (some zeroPdu) .AVTP_CRF_FIELD_SEQ_NUM 200).2, 0,
        some 200) ∧
    avtp_crf_pdu_get
      (avtp_crf_pdu_set (some zeroPdu) .AVTP_CRF_FIELD_BASE_FREQ 48000).2
      .AVTP_CRF_FIELD_BASE_FREQ (some 0)
      = ((avtp_crf_pdu_set (some zeroPdu) .AVTP_CRF_FIELD_BASE_FREQ 48000).2,
        0, some 48000) :=
  ⟨set_get_roundtrip.1 zeroPdu 0 .AVTP_CRF_FIELD_SEQ_NUM 200 (by decide)
      (by decide),
    set_get_roundtrip.2 zeroPdu 0 48000 (by decide)⟩

theorem word_isolate32_tu_set (b v w2 s2 : Nat) (h2 : s2 + w2 ≤ 32)
    (hd : 1 ≤ s2) :
    BITMAP_GET_VALUE (ntohl (htonl (BITMAP_SET_VALUE 32 b v (BITMASK 1) 0)))
      (BITMASK w2 <<< s2) s2 = BITMAP_GET_VALUE b (BITMASK w2 <<< s2) s2 :=
  word_isolate32 b v 1 0 w2 s2 (by omega) h2 (Or.inl hd)

theorem word_isolate32_tu_get (b v w1 s1 : Nat) (h1 : s1 + w1 ≤ 32)
    (hd : 1 ≤ s1) :
    BITMAP_GET_VALUE (ntohl (htonl (BITMAP_SET_VALUE 32 b v
      (BITMASK w1 <<< s1) s1))) (BITMASK 1) 0
      = BITMAP_GET_VALUE b (BITMASK 1) 0 :=
  word_isolate32 b v w1 s1 1 0 h1 (by omega) (Or.inr hd)

/-- C6: setting one field never changes the decoded value of a different
field: for every non-null header, every pair of distinct fields f ≠ g with g
among the gettable fields, and every value accepted by `set` for f, the
result (code and value) of `get` on g is the same before and after the
`set`. -/
theorem field_isolation (p : avtp_crf_pdu) (f g : avtp_crf_field) (v u : Nat)
    (hg : g ∈ [avtp_crf_field.AVTP_CRF_FIELD_SV, .AVTP_CRF_FIELD_MR,
      .AVTP_CRF_FIELD_FS, .AVTP_CRF_FIELD_TU, .AVTP_CRF_FIELD_SEQ_NUM,
      .AVTP_CRF_FIELD_TYPE, .AVTP_CRF_FIELD_PULL, .AVTP_CRF_FIELD_BASE_FREQ,
      .AVTP_CRF_FIELD_CRF_DATA_LEN, .AVTP_CRF_FIELD_STREAM_ID,
      .AVTP_CRF_FIELD_TIMESTAMP_INTERVAL])
    (hfg : f ≠ g) (hset : (avtp_crf_pdu_set (some p) f v).1 = 0) :
    (avtp_crf_pdu_get (avtp_crf_pdu_set (some p) f v).2 g (some u)).2
      = (avtp_crf_pdu_get (some p) g (some u)).2 := by
  cases f with
  | AVTP_CRF_FIELD_PULL =>
    by_cases hv : v = AVTP_CRF_PULL_MULT_BY_1
    · fin_cases hg <;>
        first
        | exact absurd rfl hfg
        | simp [avtp_crf_pdu_set, set_field_value_64, hv]
    · simp [avtp_crf_pdu_set, set_field_value_64, hv, EINVAL] at hset
  | AVTP_CRF_FIELD_BASE_FREQ =>
    rcases hfind : base_freq2rate.findIdx? (fun r => r == v) with _ | i
    · simp [avtp_crf_pdu_set, set_field_value_64, hfind, EINVAL] at hset
    · fin_cases hg <;>
        first
        | exact absurd rfl hfg
        | simp [avtp_crf_pdu_set, set_field_value_32, set_field_value_64,
            write_32, write_64, avtp_crf_pdu_get, get_field_value, hfind,
            MASK_SV, MASK_MR, MASK_FS, MASK_TV, MASK_TU, MASK_SEQ_NUM,
            MASK_TYPE, MASK_BASE_FREQ, MASK_CRF_DATA_LEN,
            MASK_TIMESTAMP_INTERVAL, SHIFT_SV, SHIFT_MR, SHIFT_FS, SHIFT_TV,
            SHIFT_TU, SHIFT_SEQ_NUM, SHIFT_TYPE, SHIFT_BASE_FREQ,
            SHIFT_CRF_DATA_LEN, word_isolate32, word_isolate64,
            word_isolate64_ti_get, word_isolate64_ti_set,
            word_isolate32_tu_set, word_isolate32_tu_get]
  | AVTP_CRF_FIELD_MAX =>
    simp [avtp_crf_pdu_set, EINVAL] at hset
  | _ =>
    fin_cases hg <;>
      first
      | exact absurd rfl hfg
      | simp [avtp_crf_pdu_set, set_field_value_32, set_field_value_64,
          write_32, write_64, avtp_crf_pdu_get, get_field_value,
          MASK_SV, MASK_MR, MASK_FS, MASK_TV, MASK_TU, MASK_SEQ_NUM,
          MASK_TYPE, MASK_BASE_FREQ, MASK_CRF_DATA_LEN,
          MASK_TIMESTAMP_INTERVAL, SHIFT_SV, SHIFT_MR, SHIFT_FS, SHIFT_TV,
          SHIFT_TU, SHIFT_SEQ_NUM, SHIFT_TYPE, SHIFT_BASE_FREQ,
          SHIFT_CRF_DATA_LEN, word_isolate32, word_isolate64,
          word_isolate64_ti_get, word_isolate64_ti_set,
          word_isolate32_tu_set, word_isolate32_tu_get]

/-- C6 witness: setting SEQ_NUM to 200 does not change the decoded SV
flag. -/
theorem field_isolation_witness :
    (avtp_crf_pdu_get
      (avtp_crf_pdu_set (some zeroPdu) .AVTP_CRF_FIELD_SEQ_NUM 200).2
      .AVTP_CRF_FIELD_SV (some 0)).2
      = (avtp_crf_pdu_get (some zeroPdu) .AVTP_CRF_FIELD_SV (some 0)).2 :=
  field_isolation zeroPdu .AVTP_CRF_FIELD_SEQ_NUM .AVTP_CRF_FIELD_SV 200 0
    (by decide) (by decide) (by decide)
